import Mathlib

/-
Verification of the real-time session and buffering layer of the
ditto-talkinghead streaming services.

The development shallowly embeds the two source files
rtmp_streaming_service.py and streaming_service.py: queues become lists
(front of the list = oldest element, pop order = list order), the Python
dict registries become association lists keyed by strings, exceptions
become Except values, and external collaborators (cv2, numpy, base64,
PyAudio devices, the ffmpeg subprocess pipe, the StreamSDK engine) are
modelled by explicit parameters that choose their outcome.
-/

set_option autoImplicit false

namespace Ditto

/-! ## Queue primitives

Python `queue.Queue(maxsize)` and `asyncio.Queue(maxsize)`: `put_nowait`
raises Full iff `0 < maxsize` and the queue already holds at least
`maxsize` elements (maxsize 0 means unbounded); `get_nowait` raises
Empty iff the queue is empty. -/

inductive QueueExn where
  | full
  | empty
deriving DecidableEq, Repr

instance exceptDecEq {ε α : Type} [DecidableEq ε] [DecidableEq α] :
    DecidableEq (Except ε α) := fun x y =>
  match x, y with
  | .ok a, .ok b =>
    if h : a = b then isTrue (by rw [h]) else isFalse (by simp [h])
  | .error a, .error b =>
    if h : a = b then isTrue (by rw [h]) else isFalse (by simp [h])
  | .ok _, .error _ => isFalse (by simp)
  | .error _, .ok _ => isFalse (by simp)

def put_nowait {α : Type} (maxsize : Nat) (q : List α) (x : α) : Except QueueExn (List α) :=
  if 0 < maxsize ∧ maxsize ≤ q.length then .error .full else .ok (q ++ [x])

def get_nowait {α : Type} (q : List α) : Except QueueExn (α × List α) :=
  match q with
  | [] => .error .empty
  | x :: t => .ok (x, t)

/-- Drop-oldest admission, exactly as both source call sites write it:
try `put_nowait`; on Full, `get_nowait` one element and retry the
`put_nowait`; a (sequentially unreachable) Empty from the inner get is
passed over, leaving the queue as it was. The retried put is outside the
narrow except clause, so its (sequentially unreachable) Full would
propagate; `dropOldestPushE` keeps that path visible. -/
def dropOldestPushE {α : Type} (maxsize : Nat) (q : List α) (x : α) : Except QueueExn (List α) :=
  match put_nowait maxsize q x with
  | .ok q1 => .ok q1
  | .error _ =>
    match get_nowait q with
    | .error _ => .ok q
    | .ok (_, t) => put_nowait maxsize t x

/-- Total form of the drop-oldest admission. On states reachable in the
services (queue length never above maxsize) it agrees with
`dropOldestPushE`; see `dropOldestPushE_eq_ok`. -/
def dropOldestPush {α : Type} (maxsize : Nat) (q : List α) (x : α) : List α :=
  if 0 < maxsize ∧ maxsize ≤ q.length then
    match q with
    | [] => []
    | _ :: t => t ++ [x]
  else q ++ [x]

theorem dropOldestPushE_eq_ok {α : Type} (maxsize : Nat) (q : List α) (x : α)
    (h : q.length ≤ maxsize) :
    dropOldestPushE maxsize q x = .ok (dropOldestPush maxsize q x) := by
  unfold dropOldestPushE dropOldestPush put_nowait get_nowait
  by_cases hfull : 0 < maxsize ∧ maxsize ≤ q.length
  · have hlen : q.length = maxsize := Nat.le_antisymm h hfull.2
    cases q with
    | nil =>
      exfalso
      have h1 := hfull.1
      have h2 := hfull.2
      simp at h2
      omega
    | cons a t =>
      have hlen' : t.length + 1 = maxsize := by simpa using hlen
      have hle1 : maxsize ≤ t.length + 1 := by omega
      have hle2 : ¬ maxsize ≤ t.length := by omega
      simp [hfull, hle1, hle2]
  · simp [hfull]

/-- The capacity of the microphone audio queue (`queue.Queue(maxsize=100)`
in `AudioCapture.__init__`). -/
def audioQueueMaxsize : Nat := 100

/-- The capacity of the WebSocket frame queue (`asyncio.Queue(maxsize=30)`
in `StreamingVideoWriter.__init__`). -/
def frameQueueMaxsize : Nat := 30

theorem dropOldestPush_length_le {α : Type} {maxsize : Nat} (hc : 0 < maxsize)
    {q : List α} (hq : q.length ≤ maxsize) (x : α) :
    (dropOldestPush maxsize q x).length ≤ maxsize := by
  unfold dropOldestPush
  by_cases hfull : 0 < maxsize ∧ maxsize ≤ q.length
  · cases q with
    | nil =>
      exfalso
      have h1 := hfull.1
      have h2 := hfull.2
      simp at h2
      omega
    | cons a t =>
      have hlen' : t.length + 1 ≤ maxsize := by simpa using hq
      have hle1 : maxsize ≤ t.length + 1 := by
        have := hfull.2
        simpa using this
      simp [hfull, hle1]
      omega
  · have : q.length < maxsize := by
      rcases Nat.lt_or_ge q.length maxsize with h | h
      · exact h
      · exact absurd ⟨hc, h⟩ hfull
    simp [hfull]
    omega

/-- Closed form of folding drop-oldest pushes over any sequence: the
result is the concatenation of the pre-state and the pushed sequence with
exactly the oldest overflow dropped from the front. -/
theorem foldl_dropOldestPush {α : Type} {maxsize : Nat} (hc : 0 < maxsize)
    (xs : List α) (q : List α) (hq : q.length ≤ maxsize) :
    List.foldl (dropOldestPush maxsize) q xs
      = (q ++ xs).drop (q.length + xs.length - maxsize) := by
  induction xs generalizing q with
  | nil =>
    have h0 : q.length - maxsize = 0 := by omega
    simp [h0]
  | cons x xs ih =>
    have hstep : (dropOldestPush maxsize q x).length ≤ maxsize :=
      dropOldestPush_length_le hc hq x
    rw [List.foldl_cons, ih (dropOldestPush maxsize q x) hstep]
    by_cases hfull : 0 < maxsize ∧ maxsize ≤ q.length
    · have hlen : q.length = maxsize := Nat.le_antisymm hq hfull.2
      cases q with
      | nil =>
        exfalso
        simp at hlen
        omega
      | cons a t =>
        have hlen' : t.length + 1 = maxsize := by simpa using hlen
        have hle1 : maxsize ≤ t.length + 1 := by omega
        have hdef : dropOldestPush maxsize (a :: t) x = t ++ [x] := by
          unfold dropOldestPush
          simp [hfull, hle1]
        rw [hdef]
        have hlt : t.length = maxsize - 1 := by omega
        have hidx1 : (t ++ [x]).length + xs.length - maxsize = xs.length := by
          simp [hlt]
          omega
        have hidx2 : (a :: t).length + (x :: xs).length - maxsize = xs.length + 1 := by
          simp [hlt]
          omega
        rw [hidx1, hidx2]
        have hassoc : (a :: t) ++ x :: xs = a :: (t ++ [x] ++ xs) := by simp
        rw [hassoc, List.drop_succ_cons]
    · have hlt : q.length < maxsize := by
        rcases Nat.lt_or_ge q.length maxsize with h | h
        · exact h
        · exact absurd ⟨hc, h⟩ hfull
      have hdef : dropOldestPush maxsize q x = q ++ [x] := by
        unfold dropOldestPush
        simp [hfull]
      rw [hdef]
      have hidx : (q ++ [x]).length + xs.length - maxsize
          = q.length + (x :: xs).length - maxsize := by
        simp
        omega
      rw [hidx]
      have hassoc : q ++ [x] ++ xs = q ++ x :: xs := by simp
      rw [hassoc]

/-! ## Images, external codecs, frames

External collaborators (cv2 colour conversion, resizing and JPEG
encoding, base64, numpy buffer decoding) are modelled as an explicit
record of abstract total functions passed to the operations that use
them. An image carries its pixel data (abstract token) and its shape. -/

structure Img where
  data : Nat
  height : Nat
  width : Nat
deriving DecidableEq, Repr

structure Cv where
  cvtColor_RGB2BGR : Img → Img
  cvtColor_BGR2RGB : Img → Img
  resize : Img → Nat → Nat → Img
  imencode_jpg80 : Img → Nat
  b64encode : Nat → String
  tobytes : Img → Nat
  frombuffer_f32 : Nat → Nat

/-- A trivial instantiation of the external codec record, used to
evaluate the model on concrete inputs. -/
def cvId : Cv where
  cvtColor_RGB2BGR := fun i => i
  cvtColor_BGR2RGB := fun i => i
  resize := fun i w h => { data := i.data, height := h, width := w }
  imencode_jpg80 := fun i => i.data
  b64encode := fun n => toString n
  tobytes := fun i => i.data
  frombuffer_f32 := fun n => n

/-- Messages placed on the WebSocket frame queue: the frame dicts
`\x7b"type": "frame", "data": ..., "timestamp": ...\x7d` and the terminal
end-of-stream marker `\x7b"type": "end"\x7d`. Timestamps are abstract
clock readings. -/
inductive WsMessage where
  | frame (data : String) (timestamp : Nat)
  | endMarker
deriving DecidableEq, Repr

/-! ## StreamingVideoWriter (streaming_service.py) -/

structure StreamingVideoWriter where
  websocket : Nat
  frame_queue : List WsMessage := []
  is_active : Bool := true
deriving DecidableEq, Repr

/-- The `__call__` method of StreamingVideoWriter: early-return when
inactive, otherwise convert RGB to BGR, JPEG-encode, base64, and push
the frame dict into the 30-slot queue with the drop-oldest pattern.
The retried put in the source rebuilds the dict with a fresh
`time.time()` reading; both reads are modelled by the one abstract
instant `now`. -/
def StreamingVideoWriter.call (cv : Cv) (frame_rgb : Img) (fmt : String) (now : Nat)
    (w : StreamingVideoWriter) : StreamingVideoWriter :=
  if w.is_active then
    let frame_bgr := if fmt = "rgb" then cv.cvtColor_RGB2BGR frame_rgb else frame_rgb
    let frame_base64 := cv.b64encode (cv.imencode_jpg80 frame_bgr)
    { w with
      frame_queue :=
        dropOldestPush frameQueueMaxsize w.frame_queue (.frame frame_base64 now) }
  else w

/-- The `close` method of StreamingVideoWriter: clear the active flag,
then best-effort `put_nowait` of the end marker, with QueueFull passed
over. -/
def StreamingVideoWriter.close (w : StreamingVideoWriter) : StreamingVideoWriter :=
  match put_nowait frameQueueMaxsize w.frame_queue WsMessage.endMarker with
  | .ok q => { w with is_active := false, frame_queue := q }
  | .error _ => { w with is_active := false }

/-- Folding a sequence of pipeline write calls over the writer. -/
def writeFrameSeq (cv : Cv) (w : StreamingVideoWriter) :
    List (Img × String × Nat) → StreamingVideoWriter
  | [] => w
  | (img, fmt, t) :: rest =>
    writeFrameSeq cv (StreamingVideoWriter.call cv img fmt t w) rest

/-! ## RTMPStreamWriter (rtmp_streaming_service.py)

The ffmpeg subprocess standard-input pipe records the byte buffers it
accepted; the outcome of each OS-level write is chosen by an explicit
`PipeOutcome` parameter. -/

structure PipeHandle where
  written : List Nat := []
deriving DecidableEq, Repr

inductive OsExn where
  | brokenPipe
  | osError
deriving DecidableEq, Repr

inductive PipeOutcome where
  | ok
  | brokenPipe
  | osError
deriving DecidableEq, Repr

def PipeHandle.write (p : PipeHandle) (b : Nat) (outcome : PipeOutcome) :
    Except OsExn PipeHandle :=
  match outcome with
  | .ok => .ok { written := p.written ++ [b] }
  | .brokenPipe => .error .brokenPipe
  | .osError => .error .osError

structure RTMPStreamWriter where
  rtmp_url : String
  width : Nat := 512
  height : Nat := 512
  fps : Nat := 25
  process : Option PipeHandle := none
  is_active : Bool := false
deriving DecidableEq, Repr

/-- The `start` method: spawn the ffmpeg subprocess and mark the writer
active. -/
def RTMPStreamWriter.start (w : RTMPStreamWriter) : RTMPStreamWriter :=
  { w with process := some {}, is_active := true }

/-- The `__call__` method: early-return when inactive or without a
subprocess; otherwise convert and resize as needed and write the raw
bytes to the pipe, with BrokenPipeError and OSError caught and turned
into `is_active := false`. The Except result records whether an
exception escapes the method; the except clause covers every exception
the body can raise, so every path is `.ok`. -/
def RTMPStreamWriter.call (cv : Cv) (frame_rgb : Img) (fmt : String)
    (outcome : PipeOutcome) (w : RTMPStreamWriter) :
    Except OsExn RTMPStreamWriter :=
  if w.is_active then
    match w.process with
    | none => .ok w
    | some p =>
      let f1 := if fmt ≠ "rgb" then cv.cvtColor_BGR2RGB frame_rgb else frame_rgb
      let f2 := if (f1.height, f1.width) ≠ (w.height, w.width)
                then cv.resize f1 w.width w.height else f1
      match p.write (cv.tobytes f2) outcome with
      | .ok p2 => .ok { w with process := some p2 }
      | .error _ => .ok { w with is_active := false }
  else .ok w

/-- The `close` method: clear the active flag and, when a subprocess
exists, close its pipe and wait for it (killing it on timeout), ending
with the handle dropped. Both the clean-exit and the timeout-kill path
leave the same state. -/
def RTMPStreamWriter.close (w : RTMPStreamWriter) : RTMPStreamWriter :=
  match w.process with
  | none => { w with is_active := false }
  | some _ => { w with is_active := false, process := none }

/-- Folding a sequence of RTMP write calls over the writer, with the
recovered state threaded through (no call in the sequence escapes with
an exception, matching the source except clause). -/
def writeSeq (cv : Cv) (w : RTMPStreamWriter) :
    List (Img × String × PipeOutcome) → RTMPStreamWriter
  | [] => w
  | (img, fmt, o) :: rest =>
    writeSeq cv
      (match RTMPStreamWriter.call cv img fmt o w with
       | .ok w2 => w2
       | .error _ => w) rest

/-! ## AudioCapture (rtmp_streaming_service.py) -/

structure AudioCapture where
  sample_rate : Nat := 16000
  chunk_size : Nat := 1024
  stream : Option Unit := none
  audio_queue : List Nat := []
  is_active : Bool := false
deriving DecidableEq, Repr

/-- The `start_capture` method: open the PyAudio input stream and mark
the capture active; the whole body sits in a try whose except clause
catches every exception and only prints, so a device failure leaves the
state untouched and raises nothing. `deviceOk` chooses whether the
device opens. -/
def AudioCapture.start_capture (deviceOk : Bool) (a : AudioCapture) : AudioCapture :=
  if deviceOk then { a with stream := some (), is_active := true }
  else a

/-- The device callback `_audio_callback`: when active, decode the raw
buffer and push it into the 100-slot queue with the drop-oldest
pattern. -/
def AudioCapture.audio_callback (cv : Cv) (in_data : Nat) (a : AudioCapture) : AudioCapture :=
  if a.is_active then
    { a with
      audio_queue :=
        dropOldestPush audioQueueMaxsize a.audio_queue (cv.frombuffer_f32 in_data) }
  else a

/-- The `get_audio_chunk` method: blocking pop with timeout, returning
none on Empty after the timeout. -/
def AudioCapture.get_audio_chunk (a : AudioCapture) : Option Nat × AudioCapture :=
  match a.audio_queue with
  | [] => (none, a)
  | x :: t => (some x, { a with audio_queue := t })

/-- The `stop_capture` method: clear the active flag, stop and close the
stream when present, terminate the PyAudio instance. -/
def AudioCapture.stop_capture (a : AudioCapture) : AudioCapture :=
  { a with is_active := false, stream := none }

/-! ## Engine stub and worlds

The StreamSDK inference engine is an external collaborator; the model
records only what the service observes of it. A `World` fixes the
outcome of each collaborator interaction in a run. -/

structure StreamSDK where
  closed : Bool := false
deriving DecidableEq, Repr

structure World where
  deviceOk : Bool := true
  engineSetupOk : Bool := true
  sdkCloseOk : Bool := true
  workerExits : Bool := true
deriving DecidableEq, Repr

inductive EngErr where
  | engineInit
  | engineClose
deriving DecidableEq, Repr

def EngErr.msg : EngErr → String
  | .engineInit => "engine setup failed"
  | .engineClose => "engine close failed"

/-! ## String-keyed dictionaries (Python dict registries) -/

def dkeys {β : Type} (reg : List (String × β)) : List String :=
  reg.map Prod.fst

def dlookup {β : Type} : List (String × β) → String → Option β
  | [], _ => none
  | (k, v) :: t, i => if k = i then some v else dlookup t i

def derase {β : Type} (reg : List (String × β)) (i : String) : List (String × β) :=
  reg.filter fun p => p.1 ≠ i

def dset {β : Type} (reg : List (String × β)) (i : String) (v : β) : List (String × β) :=
  reg.map fun p => if p.1 = i then (i, v) else p

def dinsert {β : Type} (reg : List (String × β)) (i : String) (v : β) : List (String × β) :=
  reg ++ [(i, v)]

theorem dlookup_derase_self {β : Type} (reg : List (String × β)) (i : String) :
    dlookup (derase reg i) i = none := by
  induction reg with
  | nil => rfl
  | cons p t ih =>
    by_cases hp : p.1 = i
    · simp [derase, hp] at ih ⊢
      exact ih
    · simp [derase, hp] at ih ⊢
      simp [dlookup, hp, ih]

theorem dlookup_dinsert_self {β : Type} (reg : List (String × β)) (i : String) (v : β)
    (h : dlookup reg i = none) : dlookup (dinsert reg i v) i = some v := by
  induction reg with
  | nil => simp [dinsert, dlookup]
  | cons p t ih =>
    simp [dlookup] at h
    by_cases hp : p.1 = i
    · simp [hp] at h
    · simp [dinsert, dlookup, hp] at ih ⊢
      exact ih (by simpa [hp] using h)

theorem dset_cons {β : Type} (p : String × β) (t : List (String × β)) (i : String) (v : β) :
    dset (p :: t) i v = (if p.1 = i then (i, v) else p) :: dset t i v := rfl

theorem dlookup_dset_self {β : Type} (reg : List (String × β)) (i : String) (v e : β)
    (h : dlookup reg i = some e) : dlookup (dset reg i v) i = some v := by
  induction reg with
  | nil => simp [dlookup] at h
  | cons p t ih =>
    rw [dset_cons]
    by_cases hp : p.1 = i
    · rw [if_pos hp]
      simp [dlookup]
    · rw [if_neg hp]
      simp [dlookup, hp] at h ⊢
      exact ih h

/-! ## TalkingHeadRTMPService (rtmp_streaming_service.py)

One registry entry per stream, mirroring the dict stored in
`active_streams`. The audio-processing thread handle is present once
`start_stream_processing` has run. Observable steps of a teardown are
recorded as an event trace. -/

structure StreamEntry where
  sdk : StreamSDK
  rtmp_writer : RTMPStreamWriter
  audio_capture : AudioCapture
  active : Bool
  audio_thread : Option Unit := none
deriving DecidableEq, Repr

def RtmpRegistry : Type := List (String × StreamEntry)

inductive Ev where
  | setInactive
  | stopCapture
  | joinWorker (exited : Bool)
  | sdkClose
  | writerClose
  | deregister
deriving DecidableEq, Repr

/-- The `create_stream` method: build the SDK, start the RTMP writer,
build the audio capture, run `sdk.setup` (which may fail, propagating
before the registry is touched), replace the writer, and register the
entry. -/
def create_stream (world : World) (reg : RtmpRegistry) (stream_id : String)
    (rtmp_url : String) : Except EngErr RtmpRegistry :=
  let rtmp_writer := RTMPStreamWriter.start { rtmp_url := rtmp_url }
  let audio_capture : AudioCapture := {}
  if world.engineSetupOk then
    .ok (dinsert reg stream_id
      { sdk := {}, rtmp_writer := rtmp_writer, audio_capture := audio_capture,
        active := true })
  else .error .engineInit

/-- The `start_stream_processing` method: return silently when the id is
unknown; otherwise start the audio capture (device failures swallowed
inside `start_capture`) and spawn the audio-processing thread. -/
def start_stream_processing (world : World) (reg : RtmpRegistry) (stream_id : String) :
    RtmpRegistry :=
  match dlookup reg stream_id with
  | none => reg
  | some e =>
    dset reg stream_id
      { e with audio_capture := e.audio_capture.start_capture world.deviceOk,
               audio_thread := some () }

/-- The `stop_stream` method of the service: when the id is present,
clear the active flag, stop the capture, join the audio thread with a
5-second timeout when one exists (the join returns whether or not the
thread exited in time), close the SDK and the RTMP writer, and delete
the entry. An exception from `sdk.close` propagates, leaving the mutated
entry registered. Returns the registry, the event trace, and the escaped
exception if any. -/
def svc_stop_stream (world : World) (reg : RtmpRegistry) (stream_id : String) :
    RtmpRegistry × List Ev × Option EngErr :=
  match dlookup reg stream_id with
  | none => (reg, [], none)
  | some e =>
    let e2 := { e with active := false,
                       audio_capture := e.audio_capture.stop_capture }
    let evs := [Ev.setInactive, Ev.stopCapture] ++
      (match e2.audio_thread with
       | some _ => [Ev.joinWorker world.workerExits]
       | none => [])
    if world.sdkCloseOk then
      (derase reg stream_id, evs ++ [Ev.sdkClose, Ev.writerClose, Ev.deregister], none)
    else (dset reg stream_id e2, evs, some .engineClose)

inductive ApiError where
  | badRequest (detail : String)
  | notFound (detail : String)
  | internal (detail : String)
deriving DecidableEq, Repr

/-- The `POST /start_stream/\x7bstream_id\x7d` route: reject a duplicate
id with a 400 before anything else runs; otherwise create the stream and
start processing, converting an escaped exception to a 500. -/
def ep_start_stream (world : World) (reg : RtmpRegistry) (stream_id : String)
    (rtmp_url : String) : RtmpRegistry × Except ApiError String :=
  if (dlookup reg stream_id).isSome then
    (reg, .error (.badRequest "Stream already exists"))
  else
    match create_stream world reg stream_id rtmp_url with
    | .error e => (reg, .error (.internal e.msg))
    | .ok reg1 =>
      (start_stream_processing world reg1 stream_id,
       .ok ("Stream " ++ stream_id ++ " started successfully"))

/-- The `DELETE /stop_stream/\x7bstream_id\x7d` route: unknown id gives
a 404 with the registry untouched; otherwise the service teardown runs,
an escaped exception becoming a 500. -/
def ep_stop_stream (world : World) (reg : RtmpRegistry) (stream_id : String) :
    RtmpRegistry × Except ApiError String :=
  if (dlookup reg stream_id).isSome then
    match svc_stop_stream world reg stream_id with
    | (reg1, _, none) => (reg1, .ok ("Stream " ++ stream_id ++ " stopped successfully"))
    | (reg1, _, some e) => (reg1, .error (.internal e.msg))
  else (reg, .error (.notFound "Stream not found"))

/-- The `GET /streams` route: the list of active stream ids and their
count. -/
def ep_list_streams (reg : RtmpRegistry) : List String × Nat :=
  (dkeys reg, (dkeys reg).length)

/-! ## TalkingHeadStreamingService (streaming_service.py) -/

structure WsSession where
  sdk : StreamSDK
  writer : StreamingVideoWriter
  websocket : Nat
  active : Bool
deriving DecidableEq, Repr

def WsRegistry : Type := List (String × WsSession)

/-- The `close_session` method: when the id is present, clear the active
flag, close the SDK (an exception propagating with the mutated entry
still registered), close the writer, and delete the entry. -/
def close_session (world : World) (reg : WsRegistry) (session_id : String) :
    WsRegistry × Option EngErr :=
  match dlookup reg session_id with
  | none => (reg, none)
  | some s =>
    let s1 := { s with active := false }
    if world.sdkCloseOk then (derase reg session_id, none)
    else (dset reg session_id s1, some .engineClose)

/-! ## Helper lemmas about the writers -/

theorem streamingWriter_call_inactive (cv : Cv) (img : Img) (fmt : String) (now : Nat)
    (w : StreamingVideoWriter) (h : w.is_active = false) :
    StreamingVideoWriter.call cv img fmt now w = w := by
  simp [StreamingVideoWriter.call, h]

theorem streamingWriter_close_inactive (w : StreamingVideoWriter) :
    w.close.is_active = false := by
  unfold StreamingVideoWriter.close
  split <;> rfl

theorem writeFrameSeq_inactive (cv : Cv) (w : StreamingVideoWriter)
    (ops : List (Img × String × Nat)) (h : w.is_active = false) :
    writeFrameSeq cv w ops = w := by
  induction ops with
  | nil => rfl
  | cons op rest ih =>
    obtain ⟨img, fmt, t⟩ := op
    rw [writeFrameSeq, streamingWriter_call_inactive cv img fmt t w h]
    exact ih

theorem rtmp_call_not_active (cv : Cv) (img : Img) (fmt : String) (o : PipeOutcome)
    (w : RTMPStreamWriter) (h : w.is_active = false) :
    RTMPStreamWriter.call cv img fmt o w = .ok w := by
  simp [RTMPStreamWriter.call, h]

theorem writeSeq_inactive (cv : Cv) (w : RTMPStreamWriter)
    (ops : List (Img × String × PipeOutcome)) (h : w.is_active = false) :
    writeSeq cv w ops = w := by
  induction ops with
  | nil => rfl
  | cons op rest ih =>
    obtain ⟨img, fmt, o⟩ := op
    rw [writeSeq, rtmp_call_not_active cv img fmt o w h]
    exact ih

/-! ## Claim theorems -/

/-- Claim C1: for every sequence of pushes into a bounded drop-oldest
channel of the capacities used by the services (audio queue 100, frame
queue 30) that exceeds the capacity, the channel never holds more than
the capacity at any point along the sequence, and the final contents —
which a drain pops in order — are exactly the capacity many
most-recently-pushed elements, in push order. -/
theorem bounded_channel_bound_and_drain {α : Type} (cap : Nat) (xs : List α)
    (hcap : cap = audioQueueMaxsize ∨ cap = frameQueueMaxsize)
    (hx : cap < xs.length) :
    (∀ i : Nat, (List.foldl (dropOldestPush cap) [] (xs.take i)).length ≤ cap) ∧
    List.foldl (dropOldestPush cap) [] xs = xs.drop (xs.length - cap) := by
  have hc : 0 < cap := by
    rcases hcap with h | h <;> simp [h, audioQueueMaxsize, frameQueueMaxsize]
  constructor
  · intro i
    rw [foldl_dropOldestPush hc (xs.take i) [] (by simp)]
    simp
    omega
  · rw [foldl_dropOldestPush hc xs [] (by simp)]
    simp

theorem bounded_channel_bound_and_drain_witness :
    ((100 : Nat) = audioQueueMaxsize ∨ (100 : Nat) = frameQueueMaxsize) ∧
    (100 < (List.range 101).length) ∧
    ((∀ i : Nat,
        (List.foldl (dropOldestPush 100) [] ((List.range 101).take i)).length ≤ 100) ∧
      List.foldl (dropOldestPush 100) [] (List.range 101)
        = (List.range 101).drop ((List.range 101).length - 100)) :=
  ⟨Or.inl rfl, by simp,
    bounded_channel_bound_and_drain 100 (List.range 101) (Or.inl rfl) (by simp)⟩

/-- Claim C2: on an active adapter with a live subprocess, a write whose
pipe operation fails with a broken pipe or OS error escapes no
exception, returns with the active flag cleared and the pipe contents
untouched, and every subsequent sequence of write calls leaves the state
unchanged and writes nothing. -/
theorem rtmp_write_failure_deactivates (cv : Cv) (img : Img) (fmt : String)
    (o : PipeOutcome) (w : RTMPStreamWriter) (p : PipeHandle)
    (hact : w.is_active = true) (hp : w.process = some p) (ho : o ≠ PipeOutcome.ok) :
    RTMPStreamWriter.call cv img fmt o w = .ok { w with is_active := false } ∧
    ({ w with is_active := false } : RTMPStreamWriter).is_active = false ∧
    ({ w with is_active := false } : RTMPStreamWriter).process = some p ∧
    (∀ ops : List (Img × String × PipeOutcome),
      writeSeq cv { w with is_active := false } ops = { w with is_active := false }) := by
  refine ⟨?_, rfl, by simp [hp], ?_⟩
  · cases o with
    | ok => exact absurd rfl ho
    | brokenPipe => simp [RTMPStreamWriter.call, hact, hp, PipeHandle.write]
    | osError => simp [RTMPStreamWriter.call, hact, hp, PipeHandle.write]
  · intro ops
    exact writeSeq_inactive cv _ ops rfl

theorem rtmp_write_failure_deactivates_witness :
    ((RTMPStreamWriter.start { rtmp_url := "rtmp://u" }).is_active = true) ∧
    ((RTMPStreamWriter.start { rtmp_url := "rtmp://u" }).process = some {}) ∧
    (PipeOutcome.brokenPipe ≠ PipeOutcome.ok) ∧
    (RTMPStreamWriter.call cvId { data := 0, height := 512, width := 512 } "rgb"
        PipeOutcome.brokenPipe (RTMPStreamWriter.start { rtmp_url := "rtmp://u" })
      = .ok { RTMPStreamWriter.start { rtmp_url := "rtmp://u" } with is_active := false } ∧
     ({ RTMPStreamWriter.start { rtmp_url := "rtmp://u" } with
        is_active := false } : RTMPStreamWriter).is_active = false ∧
     ({ RTMPStreamWriter.start { rtmp_url := "rtmp://u" } with
        is_active := false } : RTMPStreamWriter).process = some {} ∧
     (∀ ops : List (Img × String × PipeOutcome),
        writeSeq cvId
            { RTMPStreamWriter.start { rtmp_url := "rtmp://u" } with is_active := false } ops
          = { RTMPStreamWriter.start { rtmp_url := "rtmp://u" } with is_active := false })) :=
  ⟨rfl, rfl, by decide,
    rtmp_write_failure_deactivates cvId { data := 0, height := 512, width := 512 } "rgb"
      PipeOutcome.brokenPipe (RTMPStreamWriter.start { rtmp_url := "rtmp://u" }) {}
      rfl rfl (by decide)⟩

/-- Claim C7: closing the ChannelAdapter while its frame channel is full
drops the end-of-stream marker silently: close returns (the QueueFull is
caught), the queue contents are unchanged, and the writer is marked
inactive. -/
theorem channel_close_full_drops_marker (w : StreamingVideoWriter)
    (h : frameQueueMaxsize ≤ w.frame_queue.length) :
    w.close.frame_queue = w.frame_queue ∧ w.close.is_active = false := by
  have hfull : 0 < frameQueueMaxsize ∧ frameQueueMaxsize ≤ w.frame_queue.length :=
    ⟨by norm_num [frameQueueMaxsize], h⟩
  unfold StreamingVideoWriter.close put_nowait
  simp [hfull]

def fullWriter : StreamingVideoWriter :=
  { websocket := 0,
    frame_queue := List.replicate 30 (WsMessage.frame "f" 0),
    is_active := true }

theorem channel_close_full_drops_marker_witness :
    frameQueueMaxsize ≤ fullWriter.frame_queue.length ∧
    (fullWriter.close.frame_queue = fullWriter.frame_queue ∧
      fullWriter.close.is_active = false) :=
  ⟨by decide, channel_close_full_drops_marker fullWriter (by decide)⟩

/-- Claim C9: once close has run, every subsequent write call leaves the
writer — in particular its frame queue — unchanged, so when the
end-of-stream marker was enqueued by close (the queue was not full), it
is and remains the last element ever pushed into the frame channel. -/
theorem channel_writes_after_close_noop (cv : Cv) (w : StreamingVideoWriter)
    (ops : List (Img × String × Nat)) :
    writeFrameSeq cv w.close ops = w.close ∧
    (w.frame_queue.length < frameQueueMaxsize →
      (w.close.frame_queue.getLast? = some WsMessage.endMarker ∧
        (writeFrameSeq cv w.close ops).frame_queue.getLast?
          = some WsMessage.endMarker)) := by
  have hseq : writeFrameSeq cv w.close ops = w.close :=
    writeFrameSeq_inactive cv w.close ops (streamingWriter_close_inactive w)
  refine ⟨hseq, fun hlt => ?_⟩
  have hnotfull : ¬ (0 < frameQueueMaxsize ∧ frameQueueMaxsize ≤ w.frame_queue.length) := by
    omega
  have hclose : w.close.frame_queue = w.frame_queue ++ [WsMessage.endMarker] := by
    unfold StreamingVideoWriter.close put_nowait
    simp [hnotfull]
  constructor
  · rw [hclose]
    simp
  · rw [hseq, hclose]
    simp

theorem channel_writes_after_close_noop_witness :
    (([] : List WsMessage).length < frameQueueMaxsize) ∧
    ((writeFrameSeq cvId ({ websocket := 0 } : StreamingVideoWriter).close []
        = ({ websocket := 0 } : StreamingVideoWriter).close) ∧
      (({ websocket := 0 } : StreamingVideoWriter).close.frame_queue.getLast?
          = some WsMessage.endMarker ∧
        (writeFrameSeq cvId ({ websocket := 0 } : StreamingVideoWriter).close
            []).frame_queue.getLast? = some WsMessage.endMarker)) := by
  have h := channel_writes_after_close_noop cvId { websocket := 0 } []
  exact ⟨by decide, h.1, h.2 (by decide)⟩

/-- Claim C10: a write on the RTMP adapter whose subprocess handle is
absent or whose active flag is clear — the state before start has run
and the state after close has completed — returns the state unchanged,
escapes no exception and writes no bytes; freshly constructed and closed
adapters are in such a state. -/
theorem rtmp_write_unstarted_or_closed_noop (cv : Cv) (img : Img) (fmt : String)
    (o : PipeOutcome) (w : RTMPStreamWriter)
    (h : w.process = none ∨ w.is_active = false) :
    RTMPStreamWriter.call cv img fmt o w = .ok w ∧
    (∀ url : String, ({ rtmp_url := url } : RTMPStreamWriter).process = none ∧
      ({ rtmp_url := url } : RTMPStreamWriter).is_active = false) ∧
    (∀ w2 : RTMPStreamWriter, w2.close.process = none ∧ w2.close.is_active = false) := by
  refine ⟨?_, fun url => ⟨rfl, rfl⟩, fun w2 => ⟨?_, ?_⟩⟩
  · rcases h with h | h
    · by_cases ha : w.is_active
      · simp [RTMPStreamWriter.call, ha, h]
      · simp [RTMPStreamWriter.call, ha]
    · simp [RTMPStreamWriter.call, h]
  · unfold RTMPStreamWriter.close
    split
    · next heq => simp [heq]
    · rfl
  · unfold RTMPStreamWriter.close
    split <;> rfl

theorem rtmp_write_unstarted_or_closed_noop_witness :
    (({ rtmp_url := "rtmp://u" } : RTMPStreamWriter).process = none ∨
      ({ rtmp_url := "rtmp://u" } : RTMPStreamWriter).is_active = false) ∧
    (RTMPStreamWriter.call cvId { data := 0, height := 512, width := 512 } "rgb"
        PipeOutcome.ok ({ rtmp_url := "rtmp://u" } : RTMPStreamWriter)
      = .ok ({ rtmp_url := "rtmp://u" } : RTMPStreamWriter) ∧
      (∀ url : String, ({ rtmp_url := url } : RTMPStreamWriter).process = none ∧
        ({ rtmp_url := url } : RTMPStreamWriter).is_active = false) ∧
      (∀ w2 : RTMPStreamWriter, w2.close.process = none ∧ w2.close.is_active = false)) :=
  ⟨Or.inl rfl,
    rtmp_write_unstarted_or_closed_noop cvId { data := 0, height := 512, width := 512 }
      "rgb" PipeOutcome.ok { rtmp_url := "rtmp://u" } (Or.inl rfl)⟩

/-! ## Concrete registry fixtures used by witnesses and counterexamples -/

def sampleEntry : StreamEntry :=
  { sdk := {}, rtmp_writer := { rtmp_url := "rtmp://u" }, audio_capture := {},
    active := true }

def sampleWsSession : WsSession :=
  { sdk := {}, writer := { websocket := 0 }, websocket := 0, active := true }

def threadEntry : StreamEntry :=
  { sdk := {}, rtmp_writer := RTMPStreamWriter.start { rtmp_url := "rtmp://u" },
    audio_capture := { stream := some (), is_active := true }, active := true,
    audio_thread := some () }

def slowWorkerWorld : World := { workerExits := false }

def deadDeviceWorld : World := { deviceOk := false }

/-- Claim C6: creating a stream whose id is already registered fails
with the already-exists rejection (HTTP 400, raised before anything else
runs) and leaves the whole registry — in particular the existing entry
under that id — unchanged. -/
theorem create_duplicate_id_rejected (world : World) (reg : RtmpRegistry)
    (stream_id rtmp_url : String) (e : StreamEntry)
    (h : dlookup reg stream_id = some e) :
    ep_start_stream world reg stream_id rtmp_url
      = (reg, .error (.badRequest "Stream already exists")) ∧
    dlookup (ep_start_stream world reg stream_id rtmp_url).1 stream_id = some e := by
  have hs : (dlookup reg stream_id).isSome := by simp [h]
  constructor
  · simp [ep_start_stream, hs]
  · simp [ep_start_stream, hs, h]

theorem create_duplicate_id_rejected_witness :
    (dlookup [("s1", sampleEntry)] "s1" = some sampleEntry) ∧
    (ep_start_stream {} [("s1", sampleEntry)] "s1" "rtmp://u"
        = ([("s1", sampleEntry)], .error (.badRequest "Stream already exists")) ∧
      dlookup (ep_start_stream {} [("s1", sampleEntry)] "s1" "rtmp://u").1 "s1"
        = some sampleEntry) :=
  ⟨by decide,
    create_duplicate_id_rejected {} [("s1", sampleEntry)] "s1" "rtmp://u" sampleEntry
      (by decide)⟩

/-- Claim C8: stopping a stream whose id is not registered fails with
the not-found rejection (HTTP 404) and the registry — hence the id list
the list endpoint reports — is exactly as before. -/
theorem stop_unknown_id_not_found (world : World) (reg : RtmpRegistry)
    (stream_id : String) (h : dlookup reg stream_id = none) :
    ep_stop_stream world reg stream_id
      = (reg, .error (.notFound "Stream not found")) ∧
    ep_list_streams (ep_stop_stream world reg stream_id).1 = ep_list_streams reg := by
  have hs : ¬ (dlookup reg stream_id).isSome := by simp [h]
  constructor <;> simp [ep_stop_stream, hs]

theorem stop_unknown_id_not_found_witness :
    (dlookup [("other", sampleEntry)] "s1" = none) ∧
    (ep_stop_stream {} [("other", sampleEntry)] "s1"
        = ([("other", sampleEntry)], .error (.notFound "Stream not found")) ∧
      ep_list_streams (ep_stop_stream {} [("other", sampleEntry)] "s1").1
        = ep_list_streams [("other", sampleEntry)]) :=
  ⟨by decide, stop_unknown_id_not_found {} [("other", sampleEntry)] "s1" (by decide)⟩

/-- Claim C4: a second stop immediately after a completed first stop is
a no-op in both services: the guard on the registry finds nothing, so
the call returns with no exception, no teardown steps, and the registry
— hence every session state it holds — unchanged. -/
theorem stop_twice_noop (w1 w2 w3 w4 : World) (reg : RtmpRegistry) (wreg : WsRegistry)
    (id sid : String)
    (h1 : (svc_stop_stream w1 reg id).2.2 = none)
    (h2 : (close_session w3 wreg sid).2 = none) :
    svc_stop_stream w2 (svc_stop_stream w1 reg id).1 id
      = ((svc_stop_stream w1 reg id).1, [], none) ∧
    close_session w4 (close_session w3 wreg sid).1 sid
      = ((close_session w3 wreg sid).1, none) := by
  constructor
  · cases hl : dlookup reg id with
    | none => simp [svc_stop_stream, hl]
    | some e =>
      by_cases hok : w1.sdkCloseOk
      · have hfst : (svc_stop_stream w1 reg id).1 = derase reg id := by
          simp [svc_stop_stream, hl, hok]
        rw [hfst]
        simp [svc_stop_stream, dlookup_derase_self]
      · exfalso
        simp [svc_stop_stream, hl, hok] at h1
  · cases hl : dlookup wreg sid with
    | none => simp [close_session, hl]
    | some s =>
      by_cases hok : w3.sdkCloseOk
      · have hfst : (close_session w3 wreg sid).1 = derase wreg sid := by
          simp [close_session, hl, hok]
        rw [hfst]
        simp [close_session, dlookup_derase_self]
      · exfalso
        simp [close_session, hl, hok] at h2

theorem stop_twice_noop_witness :
    ((svc_stop_stream {} [("s1", sampleEntry)] "s1").2.2 = none) ∧
    ((close_session {} [("s1", sampleWsSession)] "s1").2 = none) ∧
    (svc_stop_stream {} (svc_stop_stream {} [("s1", sampleEntry)] "s1").1 "s1"
        = ((svc_stop_stream {} [("s1", sampleEntry)] "s1").1, [], none) ∧
      close_session {} (close_session {} [("s1", sampleWsSession)] "s1").1 "s1"
        = ((close_session {} [("s1", sampleWsSession)] "s1").1, none)) :=
  ⟨by decide, by decide,
    stop_twice_noop {} {} {} {} [("s1", sampleEntry)] [("s1", sampleWsSession)]
      "s1" "s1" (by decide) (by decide)⟩

/-- Claim C3, counterexample: with a worker thread that does not exit
within the 5-second join timeout, the teardown still closes the engine
and adapter and removes the entry — the trace records the join
observing a still-running worker and never observing an exit, yet the
deregistration happens. This refutes removal happening only after the
worker has fully exited. -/
theorem stop_removes_despite_running_worker :
    dlookup (svc_stop_stream slowWorkerWorld [("s1", threadEntry)] "s1").1 "s1" = none ∧
    Ev.deregister ∈ (svc_stop_stream slowWorkerWorld [("s1", threadEntry)] "s1").2.1 ∧
    Ev.joinWorker false ∈ (svc_stop_stream slowWorkerWorld [("s1", threadEntry)] "s1").2.1 ∧
    Ev.joinWorker true ∉ (svc_stop_stream slowWorkerWorld [("s1", threadEntry)] "s1").2.1 := by
  decide

/-- Claim C3 as amended: the registry entry is removed only after the
engine and the output adapter have been closed (the trace always ends
engine-close, adapter-close, deregister), and the removal leaves the id
unregistered; the join of the worker is only a bounded wait, so the
worker may still be running at removal. -/
theorem stop_removes_only_after_closes (world : World) (reg : RtmpRegistry) (id : String)
    (h : Ev.deregister ∈ (svc_stop_stream world reg id).2.1) :
    (∃ pre, (svc_stop_stream world reg id).2.1
        = pre ++ [Ev.sdkClose, Ev.writerClose, Ev.deregister]) ∧
    dlookup (svc_stop_stream world reg id).1 id = none := by
  cases hl : dlookup reg id with
  | none => simp [svc_stop_stream, hl] at h
  | some e =>
    by_cases hok : world.sdkCloseOk
    · cases ht : e.audio_thread with
      | none =>
        constructor
        · exact ⟨[Ev.setInactive, Ev.stopCapture], by simp [svc_stop_stream, hl, hok, ht]⟩
        · simp [svc_stop_stream, hl, hok, dlookup_derase_self]
      | some u =>
        constructor
        · exact ⟨[Ev.setInactive, Ev.stopCapture, Ev.joinWorker world.workerExits],
            by simp [svc_stop_stream, hl, hok, ht]⟩
        · simp [svc_stop_stream, hl, hok, dlookup_derase_self]
    · exfalso
      cases ht : e.audio_thread <;> simp [svc_stop_stream, hl, hok, ht] at h

theorem stop_removes_only_after_closes_witness :
    (Ev.deregister ∈ (svc_stop_stream slowWorkerWorld [("s1", threadEntry)] "s1").2.1) ∧
    ((∃ pre, (svc_stop_stream slowWorkerWorld [("s1", threadEntry)] "s1").2.1
        = pre ++ [Ev.sdkClose, Ev.writerClose, Ev.deregister]) ∧
      dlookup (svc_stop_stream slowWorkerWorld [("s1", threadEntry)] "s1").1 "s1" = none) :=
  ⟨by decide,
    stop_removes_only_after_closes slowWorkerWorld [("s1", threadEntry)] "s1" (by decide)⟩

/-- Claim C5, counterexample: with the capture device failing to open,
starting a fresh stream still returns success and the session is
registered and kept — no device error reaches the caller and creation is
not aborted; only the capture stays inactive. This refutes the surfaced
DeviceError and the aborted creation. -/
theorem device_failure_ignored :
    (ep_start_stream deadDeviceWorld [] "s1" "rtmp://u").2
      = .ok "Stream s1 started successfully" ∧
    ((dlookup (ep_start_stream deadDeviceWorld [] "s1" "rtmp://u").1 "s1").map
        (fun e => e.audio_capture.is_active)) = some false := by
  decide

/-- Claim C5 as amended: if the capture device cannot be opened,
`start_capture` catches the failure internally and raises nothing, the
stream-creation endpoint still reports success, the session is
registered, and its audio capture is left inactive with no open device
stream. -/
theorem device_failure_swallowed (world : World) (reg : RtmpRegistry)
    (id url : String) (hdev : world.deviceOk = false)
    (heng : world.engineSetupOk = true) (habs : dlookup reg id = none) :
    (ep_start_stream world reg id url).2
      = .ok ("Stream " ++ id ++ " started successfully") ∧
    ((dlookup (ep_start_stream world reg id url).1 id).map
        (fun e => (e.audio_capture.is_active, e.audio_capture.stream)))
      = some (false, none) := by
  have hs : ¬ (dlookup reg id).isSome := by simp [habs]
  have hins : dlookup
      (dinsert reg id
        { sdk := {}, rtmp_writer := RTMPStreamWriter.start { rtmp_url := url },
          audio_capture := {}, active := true }) id
      = some
        { sdk := {}, rtmp_writer := RTMPStreamWriter.start { rtmp_url := url },
          audio_capture := {}, active := true } :=
    dlookup_dinsert_self reg id _ habs
  constructor
  · simp [ep_start_stream, hs, create_stream, heng]
  · simp [ep_start_stream, hs, create_stream, heng, start_stream_processing, hins,
      AudioCapture.start_capture, hdev]
    rw [dlookup_dset_self _ _ _ _ hins]
    simp [AudioCapture.start_capture, hdev]

theorem device_failure_swallowed_witness :
    (deadDeviceWorld.deviceOk = false) ∧
    (deadDeviceWorld.engineSetupOk = true) ∧
    (dlookup ([] : RtmpRegistry) "s1" = none) ∧
    ((ep_start_stream deadDeviceWorld [] "s1" "rtmp://u").2
        = .ok ("Stream " ++ "s1" ++ " started successfully") ∧
      ((dlookup (ep_start_stream deadDeviceWorld [] "s1" "rtmp://u").1 "s1").map
          (fun e => (e.audio_capture.is_active, e.audio_capture.stream)))
        = some (false, none)) :=
  ⟨rfl, rfl, rfl,
    device_failure_swallowed deadDeviceWorld [] "s1" "rtmp://u" rfl rfl rfl⟩

end Ditto
